import Mathlib

/-!
Shallow embedding of the environment/stack composition engine of the
CDK_Jenkins_Github-POC repository (TypeScript, AWS CDK).

The embedded code is:
  * `lib/constructs/config/environment-config.ts` (src/unnamed/part_004):
    the `EnvironmentConfig` interface and the `devConfig` / `prodConfig` /
    `drConfig` records;
  * `bin/multi-stack-cdk.ts`: context defaults, `getEnvConfig`,
    `getEnvVars`, `createStacks`;
  * `lib/infrastructure-stack.ts` (src/unnamed/part_001): the secret
    checks and the `CfnOutput` export-key scheme of `InfrastructureStack`;
  * `lib/cluster-stack.ts` (src/unnamed/part_006): the `ClusterVersion`
    tag logic of `ClusterStack`;
  * `lib/application-stack.ts`: the Grafana-password check of
    `ApplicationStack`.

The concrete cloud resources each stack declares (VPCs, databases, ECS
services, ...) are resource declarations handed to the external cloud
orchestrator; they are outside the composition engine and are not
modelled, only the stacks' composition-relevant inputs, checks, declared
dependency edges and export keys are.

Machine-level caveat: `bin/multi-stack-cdk.ts` reads `config.appName` and
`config.envName` although `EnvironmentConfig` declares no such fields, and
instantiates `InfrastructureStack` and `ApplicationStack` without the flat
props (`projectName`, `environment`, `publicSubnetIds`, ...) their props
interfaces require.  Under TypeScript these are type errors; under plain
JavaScript runtime semantics a missing property reads as `undefined`, which
stringifies to the text "undefined" inside a template literal and throws a
TypeError when dereferenced.  The embedding models that runtime semantics
explicitly throughout: the "undefined" key interpolations (see
`undefinedField`), and the deterministic TypeErrors the repository's own
constructors raise on the undefined props — `props.availabilityZones.length`
at network-construct.ts line 62 inside the infrastructure constructor, and
`props.publicSubnetIds.map` at application-stack.ts line 53 inside the
application constructor — so the behaviour of the shipped composition can
be stated and checked.
-/

namespace CdkJenkins

/-- The three logical provisioning roles of the composition
(infrastructure, cluster, application). -/
inductive Role where
  | infrastructure
  | cluster
  | application
deriving DecidableEq, Repr, Fintype

/-- A CloudFormation-level value as it appears in stack props at synthesis
time: either a literal string or a deferred cross-stack import
(`cdk.Fn.importValue key`), resolved against the persisted export store at
deploy time. -/
inductive CfnValue where
  | lit (s : String)
  | importValue (exportKey : String)
deriving DecidableEq, Repr

/-- An error thrown while constructing a stack: either an explicit
`new Error(...)` for a missing required secret (message carried
verbatim), or a JavaScript TypeError raised by dereferencing a prop the
caller never passed (the Node.js message reads: Cannot read properties
of undefined, then the quoted property name; the quotes are dropped
here). -/
inductive StackError where
  | missingSecret (message : String)
  | typeError (message : String)
deriving DecidableEq, Repr

/-- `EnvironmentConfig` from `lib/constructs/config/environment-config.ts`.
`instanceType` is an `ec2.InstanceType` in the source; it is modelled by
its instance-type name string (e.g. "t3.small").  Note the interface
declares neither an `appName` nor an `envName` field. -/
structure EnvironmentConfig where
  awsRegion : String
  environment : String
  vpcCidr : String
  publicSubnetCidrs : List String
  privateSubnetCidrs : List String
  databaseSubnetCidrs : List String
  availabilityZones : List String
  instanceType : String
  jenkinsInstanceType : String
  minInstanceCount : Nat
  maxInstanceCount : Nat
  desiredInstanceCount : Nat
  useSpotInstances : Bool
  spotPrice : String
  containerPort : Nat
  keyName : String
  jenkinsRoleName : String
  domainName : String
  dbInstanceClass : String
  dbMultiAZ : Bool
  dbBackupRetentionPeriod : Nat
  dbAllocatedStorage : Nat
  dbMaxAllocatedStorage : Nat
  enableDetailedMonitoring : Bool
  logsRetentionDays : Nat
  blockedIpAddresses : List String
  maxRequestSize : Nat
  requestLimit : Nat
  enableSecurityHub : Bool
  tags : List (String × String)
deriving DecidableEq, Repr

/-- `devConfig` from `lib/constructs/config/environment-config.ts`. -/
def devConfig : EnvironmentConfig where
  awsRegion := "us-east-1"
  environment := "dev"
  vpcCidr := "10.0.0.0/16"
  publicSubnetCidrs := ["10.0.1.0/24", "10.0.2.0/24"]
  privateSubnetCidrs := ["10.0.3.0/24", "10.0.4.0/24"]
  databaseSubnetCidrs := ["10.0.5.0/24", "10.0.6.0/24"]
  availabilityZones := ["us-east-1a", "us-east-1b"]
  instanceType := "t3.small"
  jenkinsInstanceType := "t3.small"
  minInstanceCount := 1
  maxInstanceCount := 3
  desiredInstanceCount := 1
  useSpotInstances := true
  spotPrice := "0.04"
  containerPort := 8080
  keyName := "dev-key"
  jenkinsRoleName := "jenkins-role-dev"
  domainName := "dev.example.com"
  dbInstanceClass := "db.t3.small"
  dbMultiAZ := false
  dbBackupRetentionPeriod := 7
  dbAllocatedStorage := 20
  dbMaxAllocatedStorage := 100
  enableDetailedMonitoring := false
  logsRetentionDays := 30
  blockedIpAddresses := []
  maxRequestSize := 131072
  requestLimit := 1000
  enableSecurityHub := false
  tags := [("Environment", "dev"), ("Project", "ecs-jenkins"), ("ManagedBy", "CDK")]

/-- `prodConfig` from `lib/constructs/config/environment-config.ts`. -/
def prodConfig : EnvironmentConfig where
  awsRegion := "us-east-1"
  environment := "prod"
  vpcCidr := "10.1.0.0/16"
  publicSubnetCidrs := ["10.1.1.0/24", "10.1.2.0/24"]
  privateSubnetCidrs := ["10.1.3.0/24", "10.1.4.0/24"]
  databaseSubnetCidrs := ["10.1.5.0/24", "10.1.6.0/24"]
  availabilityZones := ["us-east-1a", "us-east-1b"]
  instanceType := "m5.large"
  jenkinsInstanceType := "t3.medium"
  minInstanceCount := 2
  maxInstanceCount := 10
  desiredInstanceCount := 4
  useSpotInstances := false
  spotPrice := "0.00"
  containerPort := 8080
  keyName := "prod-key"
  jenkinsRoleName := "jenkins-role-prod"
  domainName := "example.com"
  dbInstanceClass := "db.m5.large"
  dbMultiAZ := true
  dbBackupRetentionPeriod := 30
  dbAllocatedStorage := 50
  dbMaxAllocatedStorage := 500
  enableDetailedMonitoring := true
  logsRetentionDays := 90
  blockedIpAddresses := []
  maxRequestSize := 131072
  requestLimit := 5000
  enableSecurityHub := true
  tags := [("Environment", "prod"), ("Project", "ecs-jenkins"), ("ManagedBy", "CDK")]

/-- `drConfig` from `lib/constructs/config/environment-config.ts`. -/
def drConfig : EnvironmentConfig where
  awsRegion := "us-west-2"
  environment := "dr"
  vpcCidr := "10.2.0.0/16"
  publicSubnetCidrs := ["10.2.1.0/24", "10.2.2.0/24"]
  privateSubnetCidrs := ["10.2.3.0/24", "10.2.4.0/24"]
  databaseSubnetCidrs := ["10.2.5.0/24", "10.2.6.0/24"]
  availabilityZones := ["us-west-2a", "us-west-2b"]
  instanceType := "t3.micro"
  jenkinsInstanceType := "t3.small"
  minInstanceCount := 1
  maxInstanceCount := 10
  desiredInstanceCount := 1
  useSpotInstances := false
  spotPrice := "0.00"
  containerPort := 8080
  keyName := "dr-key"
  jenkinsRoleName := "jenkins-role-dr"
  domainName := "dr-ecs-jenkins.example.com"
  dbInstanceClass := "db.t3.small"
  dbMultiAZ := false
  dbBackupRetentionPeriod := 30
  dbAllocatedStorage := 50
  dbMaxAllocatedStorage := 500
  enableDetailedMonitoring := true
  logsRetentionDays := 90
  blockedIpAddresses := []
  maxRequestSize := 131072
  requestLimit := 5000
  enableSecurityHub := true
  tags := [("Environment", "dr"), ("Project", "ecs-jenkins"), ("ManagedBy", "CDK"),
           ("DisasterRecovery", "PilotLight")]

/-- `getEnvConfig` from `bin/multi-stack-cdk.ts`: a `switch` with cases
`prod` and `dr`, and `case dev` falling through to `default`, which
returns `devConfig`.  Every name other than `prod` and `dr` therefore
resolves to `devConfig`; no branch throws. -/
def getEnvConfig (env : String) : EnvironmentConfig :=
  if env = "prod" then prodConfig
  else if env = "dr" then drConfig
  else devConfig

/-- JavaScript `String.prototype.toUpperCase()` as applied to the ASCII
environment names of this code base: upper-case every character.  Defined
by a structural map over the string's characters (Lean's own
`String.toUpper` is observationally the same function but is defined by
well-founded recursion over positions and so does not evaluate inside
proofs). -/
def jsToUpper (s : String) : String := String.mk (s.data.map Char.toUpper)

/-- The record returned by `getEnvVars` in `bin/multi-stack-cdk.ts`. -/
structure EnvVars where
  dbUsername : String
  dbPassword : String
  grafanaPassword : String
deriving DecidableEq, Repr

/-- `getEnvVars` from `bin/multi-stack-cdk.ts`.  `procEnv` stands for
`process.env` (an external key/value source; absent variables read as
`undefined`, and `x || ''` turns that into the empty string).  The lookup
key gets the empty prefix for `dev` and `ENV.toUpperCase() + "_"`
otherwise. -/
def getEnvVars (env : String) (procEnv : String → Option String) : EnvVars :=
  let pfx := if env = "dev" then "" else jsToUpper env ++ "_"
  { dbUsername := (procEnv (pfx ++ "DB_USERNAME")).getD ""
    dbPassword := (procEnv (pfx ++ "DB_PASSWORD")).getD ""
    grafanaPassword := (procEnv (pfx ++ "GRAFANA_ADMIN_PASSWORD")).getD "" }

/-- Written from the spec sentence (not from the source), for comparison
with `getEnvVars`: the secret-variable lookup key is the bare variable
name for the primary environment (dev) and the variable name prefixed
with the upper-cased environment name plus an underscore otherwise. -/
def specSecretKey (env varName : String) : String :=
  if env = "dev" then varName else jsToUpper env ++ "_" ++ varName

/-- JavaScript falsy-coalescing `x || d` applied to a string-valued
context lookup, as in `app.node.tryGetContext('env') || 'dev'`: an absent
value (`undefined`) and the empty string both fall back to the default. -/
def jsOrDefault (v : Option String) (d : String) : String :=
  match v with
  | some s => if s = "" then d else s
  | none => d

/-- `const env = app.node.tryGetContext('env') || 'dev'` in
`bin/multi-stack-cdk.ts`; `ctx` stands for the CLI context map. -/
def contextEnv (ctx : String → Option String) : String :=
  jsOrDefault (ctx "env") "dev"

/-- `const deployTarget = app.node.tryGetContext('deploy-target') || 'all'`. -/
def contextDeployTarget (ctx : String → Option String) : String :=
  jsOrDefault (ctx "deploy-target") "all"

/-- `const clusterVersion = app.node.tryGetContext('cluster-version')`:
no default, the value stays optional. -/
def contextClusterVersion (ctx : String → Option String) : Option String :=
  ctx "cluster-version"

/-- `const appVersion = app.node.tryGetContext('version') || 'latest'`. -/
def contextAppVersion (ctx : String → Option String) : String :=
  jsOrDefault (ctx "version") "latest"

/-- The text produced by interpolating a JavaScript `undefined` value into
a template literal.  `bin/multi-stack-cdk.ts` interpolates
`config.appName` and `config.envName`, which `EnvironmentConfig` does not
declare, and `lib/infrastructure-stack.ts` receives no
`projectName`/`environment` props from that entry point; at runtime all
of these read as `undefined`. -/
def undefinedField : String := "undefined"

/-- The vpc-id import key built at `bin/multi-stack-cdk.ts` lines 86/112:
the template over `config.appName` and `config.envName`.  Both property
reads miss (no such fields on `EnvironmentConfig`), so the key is
"undefined-undefined-vpc-id" for every config; the parameter records the
source's (vacuous) dependence on the config. -/
def multiStackVpcImportKey (_config : EnvironmentConfig) : String :=
  undefinedField ++ "-" ++ undefinedField ++ "-vpc-id"

/-- The cluster-name import key built at `bin/multi-stack-cdk.ts` line
113, over the same missing `config.appName`/`config.envName` fields. -/
def multiStackClusterNameImportKey (_config : EnvironmentConfig) : String :=
  undefinedField ++ "-" ++ undefinedField ++ "-cluster-name"

/-- Modelled from the spec: the persisted cross-stack export store.
CloudFormation's export table, which `CfnOutput`/`exportName` writes and
`cdk.Fn.importValue` reads, is external to the repository (spec section 6:
"Persisted export store: external key/value store addressable by
projectName-environmentName-exportName; publish writes, resolve reads;
must support does-not-exist as a distinct, reportable outcome").  Modelled
as an association list from export keys to values; `publish` overwrites
deterministically, `resolveExport` distinguishes absence by `none`. -/
abbrev ExportStore : Type := List (String × String)

/-- The empty export store (no exports ever published). -/
def ExportStore.empty : ExportStore := ([] : List (String × String))

/-- Drop every binding of a key from the store. -/
def removeKey : ExportStore → String → ExportStore
  | [], _ => ([] : List (String × String))
  | kv :: rest, key =>
    if kv.1 = key then removeKey rest key else kv :: removeKey rest key

/-- Publish an export: later writes to the same key win (a re-run
overwrites the same key deterministically). -/
def publish (store : ExportStore) (key value : String) : ExportStore :=
  (key, value) :: removeKey store key

/-- Resolve an export key; `none` is the ExportNotFound outcome. -/
def resolveExport : ExportStore → String → Option String
  | [], _ => none
  | kv :: rest, key => if kv.1 = key then some kv.2 else resolveExport rest key

/-- Publish a batch of exports in order (one `publish` per CfnOutput). -/
def publishAll (store : ExportStore) (exports : List (String × String)) : ExportStore :=
  exports.foldl (fun s kv => publish s kv.1 kv.2) store

/-- The `exportName` template of every `CfnOutput` in
`lib/infrastructure-stack.ts`:
`` `${props.projectName}-${props.environment}-<name>` ``. -/
def mkExportKey (projectName environment exportName : String) : String :=
  projectName ++ "-" ++ environment ++ "-" ++ exportName

/-- The composition-relevant props of `InfrastructureStack`
(`lib/infrastructure-stack.ts`).  The props interface also carries the
resource-configuration fields (`vpcCidr`, subnet CIDRs, availability
zones, `dbName`, `domainName`, WAF thresholds, ...) that are consumed
only by the resource constructs, which are outside the composition
engine; the fields kept here are the ones the constructor's checks and
`CfnOutput` export keys read. -/
structure InfrastructureStackProps where
  environment : String
  projectName : String
  dbUsername : String
  dbPassword : String
deriving DecidableEq, Repr

/-- The nine `CfnOutput` exports of `lib/infrastructure-stack.ts` lines
121-175, in source order: export key paired with the source attribute the
output's `value` reads (an unresolved resource token at synthesis time,
determined by the constructed resources). -/
def infrastructureOutputs (projectName environment : String) : List (String × String) :=
  [ (mkExportKey projectName environment "vpc-id", "network.vpc.vpcId"),
    (mkExportKey projectName environment "public-subnets", "network.publicSubnets.subnetIds"),
    (mkExportKey projectName environment "private-subnets", "network.privateSubnets.subnetIds"),
    (mkExportKey projectName environment "alb-sg-id", "security.albSecurityGroup.securityGroupId"),
    (mkExportKey projectName environment "ecs-sg-id", "security.ecsSecurityGroup.securityGroupId"),
    (mkExportKey projectName environment "jenkins-sg-id",
      "security.jenkinsSecurityGroup.securityGroupId"),
    (mkExportKey projectName environment "ecs-execution-role-arn",
      "iam.ecsTaskExecutionRole.roleArn"),
    (mkExportKey projectName environment "ecs-task-role-arn", "iam.ecsTaskRole.roleArn"),
    (mkExportKey projectName environment "db-endpoint",
      "database.dbInstance.dbInstanceEndpointAddress") ]

/-- The constructed `InfrastructureStack`, reduced to its
composition-relevant observable: the ordered batch of exports it
publishes. -/
structure InfrastructureStackModel where
  outputs : List (String × String)
deriving DecidableEq, Repr

/-- The `InfrastructureStack` constructor (`lib/infrastructure-stack.ts`):
first the two secret checks (lines 45-52, throwing with the exact source
messages), then the resource constructs (external resource declarations,
not modelled), then the nine `CfnOutput` exports. -/
def infrastructureStack (props : InfrastructureStackProps) :
    Except StackError InfrastructureStackModel :=
  if props.dbUsername = "" then
    .error (.missingSecret "DB_USERNAME environment variable must be set")
  else if props.dbPassword = "" then
    .error (.missingSecret "DB_PASSWORD environment variable must be set")
  else
    .ok { outputs := infrastructureOutputs props.projectName props.environment }

/-- The props record that `bin/multi-stack-cdk.ts` lines 60-71 actually
passes to `InfrastructureStack` at runtime: it supplies
`dbUsername`/`dbPassword` from `envVars` but none of the flat fields the
props interface requires (it passes `environmentConfig: config` instead),
so `props.projectName` and `props.environment` read as `undefined`. -/
def multiStackInfraRuntimeProps (envVars : EnvVars) : InfrastructureStackProps :=
  { environment := undefinedField
    projectName := undefinedField
    dbUsername := envVars.dbUsername
    dbPassword := envVars.dbPassword }

/-- A stack as assembled by `createStacks` in `bin/multi-stack-cdk.ts`:
its role, identifiers, the composition-relevant props passed to its
constructor, the tags applied (`propTags` from the `tags:` prop,
`cdkTags` from `cdk.Tags.of(...)` calls inside the constructor), the
exports it publishes, and the `addDependency` edges recorded on it
(`dependsOn` lists the roles of the stacks it must run after). -/
structure StackModel where
  role : Role
  stackId : String
  description : String
  region : String
  propTags : List (String × String)
  cdkTags : List (String × String) := ([] : List (String × String))
  vpcId : Option CfnValue := none
  clusterName : Option CfnValue := none
  clusterVersion : Option String := none
  applicationVersion : Option String := none
  dbUsername : Option String := none
  dbPassword : Option String := none
  grafanaAdminPassword : Option String := none
  outputs : List (String × String) := ([] : List (String × String))
  dependsOn : List Role := ([] : List Role)
deriving DecidableEq, Repr

/-- The infrastructure branch of `createStacks` (lines 58-79).  The
`InfrastructureStack` constructor receives the runtime props above: its
two secret checks read `props.dbUsername`/`props.dbPassword`, which are
passed, and behave as in `infrastructureStack`.  But every other flat
prop is undefined from this entry point, so the `NetworkConstruct` the
constructor creates next (infrastructure-stack.ts line 55) throws a
deterministic TypeError at network-construct.ts line 62 —
`props.availabilityZones.length` with `availabilityZones` undefined —
before any resource or `CfnOutput` exists.  The multi-stack
infrastructure branch therefore never yields a completed stack; the
`config`/`sfx` arguments mirror the stack name, description, region and
tags the call site would have attached. -/
def mkInfraStack (_config : EnvironmentConfig) (envVars : EnvVars) (_sfx : String) :
    Except StackError StackModel :=
  match infrastructureStack (multiStackInfraRuntimeProps envVars) with
  | .error e => .error e
  | .ok _ =>
      .error (.typeError "Cannot read properties of undefined (reading length)")

/-- The cluster branch of `createStacks` (lines 82-105) together with the
tagging done inside the `ClusterStack` constructor
(`lib/cluster-stack.ts` lines 102-108): `Environment` and `Application`
tags interpolate the missing `envName`/`appName` fields, a `ClusterVersion`
tag is added only when `clusterVersion` is truthy (present and
non-empty).  `addDependency(infraStack)` is called only `if (infraStack)`,
i.e. when the infrastructure stack was created in this run.  The
constructor itself performs no secret checks and cannot throw. -/
def mkClusterStack (config : EnvironmentConfig) (clusterVersion : Option String)
    (sfx : String) (infraPresent : Bool) : StackModel :=
  { role := Role.cluster
    stackId := "EcsJenkins" ++ "Cluster" ++ sfx ++ "Stack"
    description := "ECS Jenkins Cluster - " ++ sfx ++ " Environment"
    region := config.awsRegion
    propTags := config.tags ++ [("Component", "Cluster")]
    cdkTags :=
      [("Environment", undefinedField), ("Application", undefinedField),
       ("Component", "Cluster")] ++
      (match clusterVersion with
       | some v => if v = "" then ([] : List (String × String)) else [("ClusterVersion", v)]
       | none => ([] : List (String × String)))
    vpcId := some (CfnValue.importValue (multiStackVpcImportKey config))
    clusterVersion := clusterVersion
    dependsOn := if infraPresent then [Role.infrastructure] else ([] : List Role) }

/-- The application branch of `createStacks` (lines 108-135).  The
`ApplicationStack` constructor first checks the Grafana password
(application-stack.ts lines 42-45).  Immediately afterwards, line 53
reads `props.publicSubnetIds.map`, and `bin/multi-stack-cdk.ts` never
passes `publicSubnetIds` (it passes `environmentConfig`, `vpcId`,
`clusterName`, `applicationVersion` and `grafanaAdminPassword` instead
of the flat props the interface requires), so the constructor throws a
deterministic TypeError before any resource or output exists.  The
`Fn.importValue` inputs built from `multiStackVpcImportKey` /
`multiStackClusterNameImportKey` and the `addDependency(clusterStack)`
guarded by `clusterPresent` at the call site are therefore never
attached to a completed stack; the unused arguments mirror that call
site. -/
def mkAppStack (_config : EnvironmentConfig) (envVars : EnvVars) (_appVersion : String)
    (_sfx : String) (_clusterPresent : Bool) : Except StackError StackModel :=
  if envVars.grafanaPassword = "" then
    .error (.missingSecret "GRAFANA_ADMIN_PASSWORD environment variable must be set")
  else
    .error (.typeError "Cannot read properties of undefined (reading map)")

/-- `createStacks` from `bin/multi-stack-cdk.ts` lines 49-136.  The three
branches run in source order, each guarded by its deploy-target test; a
constructor throw aborts the function (stacks already registered on the
app stay registered, later branches never run).  The result is the list
of stacks constructed, in construction order, and the error that aborted
the run, if any. -/
def createStacks (deployTarget : String) (clusterVersion : Option String)
    (appVersion : String) (env : String) (procEnv : String → Option String) :
    List StackModel × Option StackError :=
  let config := getEnvConfig env
  let envVars := getEnvVars env procEnv
  let sfx := env.capitalize
  let infraRes : Except StackError (Option StackModel) :=
    if deployTarget = "all" ∨ deployTarget = "infra" then
      (mkInfraStack config envVars sfx).map some
    else .ok none
  match infraRes with
  | .error e => (([] : List StackModel), some e)
  | .ok infraOpt =>
    let clusterOpt : Option StackModel :=
      if deployTarget = "all" ∨ deployTarget = "cluster" then
        some (mkClusterStack config clusterVersion sfx infraOpt.isSome)
      else none
    let built := infraOpt.toList ++ clusterOpt.toList
    if deployTarget = "all" ∨ deployTarget = "app" then
      match mkAppStack config envVars appVersion sfx clusterOpt.isSome with
      | .error e => (built, some e)
      | .ok app => (built ++ [app], none)
    else (built, none)

/-- The whole `bin/multi-stack-cdk.ts` entry point: read the four context
values (with their defaults) and run `createStacks`. -/
def runMultiStackApp (ctx procEnv : String → Option String) :
    List StackModel × Option StackError :=
  createStacks (contextDeployTarget ctx) (contextClusterVersion ctx)
    (contextAppVersion ctx) (contextEnv ctx) procEnv

/-- The role-level dependency edges recorded by `addDependency` on the
stacks of one run: `(a, b)` means stack of role `a` must run after the
stack of role `b`. -/
def roleEdges (stackList : List StackModel) : List (Role × Role) :=
  (stackList.map (fun s => s.dependsOn.map (fun d => (s.role, d)))).flatten

/-- Position of a role in a declaration order (length of the list if
absent). -/
def posOf (r : Role) : List Role → Nat
  | [] => 0
  | x :: xs => if x = r then 0 else posOf r xs + 1

/-- A declaration order respects the dependency edges when every stack
appears after all stacks it must run after. -/
def respectsOrder (edges : List (Role × Role)) (order : List Role) : Bool :=
  edges.all (fun e => decide (posOf e.2 order < posOf e.1 order))

/-- Concrete `process.env` supplying every variable (all secrets
present), used to instantiate the universally quantified theorems. -/
def wEnvAllSecrets : String → Option String := fun _ => some "secret"

/-- Concrete `process.env` for the prod scenario with `PROD_DB_USERNAME`
set but `PROD_DB_PASSWORD` absent. -/
def wEnvProdNoPassword : String → Option String :=
  fun k => if k = "PROD_DB_USERNAME" then some "admin" else none

/-- Concrete `process.env` supplying only the (unprefixed) database
secrets, no Grafana password. -/
def wEnvDbOnly : String → Option String :=
  fun k =>
    if k = "DB_USERNAME" then some "admin"
    else if k = "DB_PASSWORD" then some "pw"
    else none

/-- Concrete `process.env` supplying only the (unprefixed) Grafana
password, no database secrets. -/
def wEnvGrafanaOnly : String → Option String :=
  fun k => if k = "GRAFANA_ADMIN_PASSWORD" then some "g" else none

/-- Concrete `process.env` supplying the (unprefixed) database secrets
and the Grafana password; differs from `wEnvDbOnly` only in the Grafana
variable and from `wEnvGrafanaOnly` only in the database variables. -/
def wEnvDbAndGrafana : String → Option String :=
  fun k =>
    if k = "DB_USERNAME" then some "admin"
    else if k = "DB_PASSWORD" then some "pw"
    else if k = "GRAFANA_ADMIN_PASSWORD" then some "g"
    else none

/-- The empty CLI context: no `-c` values supplied. -/
def emptyContext : String → Option String := fun _ => none

/-- Concrete infrastructure-stack props used to instantiate the
idempotence theorem: the dev environment as `bin/cdk-projects.ts` wires
it (`projectName: ecs-jenkins`, `environment: dev`) with both database
secrets present. -/
def wInfraProps : InfrastructureStackProps :=
  { environment := "dev"
    projectName := "ecs-jenkins"
    dbUsername := "admin"
    dbPassword := "pw" }

/- ------------------------------------------------------------------ -/
/- Helper lemmas (shared across claims).                               -/
/- ------------------------------------------------------------------ -/

theorem resolveExport_removeKey (s : ExportStore) (k k' : String) (h : k' ≠ k) :
    resolveExport (removeKey s k) k' = resolveExport s k' := by
  induction s with
  | nil => rfl
  | cons kv rest ih =>
    by_cases hk : kv.1 = k
    · have hk' : ¬kv.1 = k' := fun hh => h (by rw [← hh, hk])
      simp only [removeKey, if_pos hk, resolveExport, if_neg hk', ih]
    · by_cases hk2 : kv.1 = k'
      · simp only [removeKey, if_neg hk, resolveExport, if_pos hk2]
      · simp only [removeKey, if_neg hk, resolveExport, if_neg hk2, ih]

theorem resolveExport_publish (s : ExportStore) (k v k' : String) :
    resolveExport (publish s k v) k' =
      if k = k' then some v else resolveExport s k' := by
  by_cases h : k = k'
  · rw [publish, resolveExport, if_pos h, if_pos h]
  · rw [publish, resolveExport, if_neg h, if_neg h,
      resolveExport_removeKey s k k' (fun hh => h hh.symm)]

/-- After publishing a batch, each key either got its last value from the
batch (independently of the starting store) or resolves as it did
before. -/
theorem publishAll_resolve_cases (E : List (String × String)) (k : String) :
    (∃ v, (∀ s : ExportStore, resolveExport (publishAll s E) k = some v)) ∨
    (∀ s : ExportStore, resolveExport (publishAll s E) k = resolveExport s k) := by
  induction E with
  | nil => exact Or.inr (fun s => rfl)
  | cons kv rest ih =>
    rcases ih with ⟨v, hv⟩ | hsame
    · exact Or.inl ⟨v, fun s => hv (publish s kv.1 kv.2)⟩
    · by_cases hk : kv.1 = k
      · refine Or.inl ⟨kv.2, fun s => ?_⟩
        rw [publishAll, List.foldl_cons, ← publishAll,
          hsame (publish s kv.1 kv.2), resolveExport_publish, if_pos hk]
      · refine Or.inr (fun s => ?_)
        rw [publishAll, List.foldl_cons, ← publishAll,
          hsame (publish s kv.1 kv.2), resolveExport_publish, if_neg hk]

/-- Re-publishing the same export batch leaves every resolution
unchanged. -/
theorem publishAll_idem (s : ExportStore) (E : List (String × String)) (k : String) :
    resolveExport (publishAll (publishAll s E) E) k =
      resolveExport (publishAll s E) k := by
  rcases publishAll_resolve_cases E k with ⟨v, hv⟩ | hsame
  · rw [hv, hv]
  · rw [hsame]

/-- Any declaration order of the three roles that respects the edge set
recorded for an "all" run is the canonical order (checked over all 27
role triples). -/
theorem respectsOrder_three_unique :
    ∀ a b c : Role,
      ([a, b, c] : List Role).isPerm
          [Role.infrastructure, Role.cluster, Role.application] = true →
      respectsOrder
          [(Role.cluster, Role.infrastructure), (Role.application, Role.cluster)]
          [a, b, c] = true →
        [a, b, c] = [Role.infrastructure, Role.cluster, Role.application] := by
  decide

/-- C3.  The claim says: export keys follow
projectName-environmentName-exportName, and a value published by the
infrastructure stack is returned exactly by a downstream resolve of the
same name in the same environment; a never-published key fails.  The
`CfnOutput` side (`lib/infrastructure-stack.ts`) does follow the
convention and the store round-trips, but the downstream import keys in
`bin/multi-stack-cdk.ts` are built from `config.appName`/`config.envName`,
fields `EnvironmentConfig` does not declare, and the infrastructure stack
is instantiated without the `projectName`/`environment` props its
interface requires; at runtime every environment's import and export keys
degrade to "undefined-undefined-...", so a value published under the
conventional key is NOT found by the downstream resolve.  This theorem
evaluates the code at that failing input (dev environment, vpc-id
export). -/
theorem claim3_export_roundtrip_bug :
    mkExportKey "ecs-jenkins" "dev" "vpc-id" = "ecs-jenkins-dev-vpc-id"
    ∧ multiStackVpcImportKey devConfig = "undefined-undefined-vpc-id"
    ∧ multiStackVpcImportKey prodConfig = multiStackVpcImportKey devConfig
    ∧ infrastructureStack (multiStackInfraRuntimeProps (getEnvVars "dev" wEnvAllSecrets))
        = Except.ok { outputs := infrastructureOutputs undefinedField undefinedField }
    ∧ (infrastructureOutputs undefinedField undefinedField).map Prod.fst
        = ["undefined-undefined-vpc-id", "undefined-undefined-public-subnets",
           "undefined-undefined-private-subnets", "undefined-undefined-alb-sg-id",
           "undefined-undefined-ecs-sg-id", "undefined-undefined-jenkins-sg-id",
           "undefined-undefined-ecs-execution-role-arn",
           "undefined-undefined-ecs-task-role-arn", "undefined-undefined-db-endpoint"]
    ∧ resolveExport
        (publish ExportStore.empty (mkExportKey "ecs-jenkins" "dev" "vpc-id") "vpc-123")
        (multiStackVpcImportKey devConfig) = none
    ∧ resolveExport
        (publish ExportStore.empty (mkExportKey "ecs-jenkins" "dev" "vpc-id") "vpc-123")
        (mkExportKey "ecs-jenkins" "dev" "vpc-id") = some "vpc-123"
    ∧ resolveExport ExportStore.empty (mkExportKey "ecs-jenkins" "dev" "vpc-id") = none := by
  exact ⟨rfl, rfl, rfl, rfl, rfl, rfl, rfl, rfl⟩

/-- C4, counterexample.  The claim says an unregistered environment name
fails with UnknownEnvironment; instead `getEnvConfig` hits the
`default:` branch and silently returns the dev configuration. -/
theorem claim4_unknown_env_counterexample :
    getEnvConfig "staging" = devConfig ∧ devConfig.environment = "dev" := by
  exact ⟨rfl, rfl⟩

/-- C4, amended.  Registered names resolve to their own configuration
records; every other name (dev itself and all unregistered names) falls
back to the dev configuration instead of failing. -/
theorem claim4_env_resolution :
    getEnvConfig "dev" = devConfig
    ∧ getEnvConfig "prod" = prodConfig
    ∧ getEnvConfig "dr" = drConfig
    ∧ ∀ s : String, s ≠ "prod" → s ≠ "dr" → getEnvConfig s = devConfig := by
  refine ⟨rfl, rfl, rfl, fun s h1 h2 => ?_⟩
  rw [getEnvConfig, if_neg h1, if_neg h2]

/-- C4, witness: the amended theorem applied to the unregistered name
"qa". -/
theorem claim4_env_resolution_witness : getEnvConfig "qa" = devConfig :=
  claim4_env_resolution.2.2.2 "qa" (by decide) (by decide)

/-- C5.  The secret-variable lookup key is the bare variable name for the
primary environment (dev) and the upper-cased environment name plus an
underscore otherwise: `getEnvVars` (the source) agrees with
`specSecretKey` (written from the spec sentence) on every environment and
every external variable store, and the convention produces the
documented keys PROD_DB_PASSWORD and DR_DB_USERNAME. -/
theorem claim5_secret_key_convention :
    (∀ (env : String) (procEnv : String → Option String),
      getEnvVars env procEnv =
        { dbUsername := (procEnv (specSecretKey env "DB_USERNAME")).getD ""
          dbPassword := (procEnv (specSecretKey env "DB_PASSWORD")).getD ""
          grafanaPassword := (procEnv (specSecretKey env "GRAFANA_ADMIN_PASSWORD")).getD "" })
    ∧ specSecretKey "prod" "DB_PASSWORD" = "PROD_DB_PASSWORD"
    ∧ specSecretKey "dr" "DB_USERNAME" = "DR_DB_USERNAME"
    ∧ specSecretKey "dev" "DB_PASSWORD" = "DB_PASSWORD" := by
  refine ⟨fun env procEnv => ?_, rfl, rfl, rfl⟩
  by_cases h : env = "dev" <;> simp [getEnvVars, specSecretKey, h]

/-- C1 (code bug).  The claim says a deploy-target "app" run creates
exactly the application stack, with externally resolved vpc-id and
cluster-name inputs, and an "all" run creates all three stacks in
dependency order.  In the code, with every secret present, the "app" run
throws a TypeError at application-stack.ts line 53
(`props.publicSubnetIds.map` on the prop the multi-stack wiring never
passes) and the "all" run throws a TypeError at network-construct.ts
line 62 (`props.availabilityZones.length` on an undefined prop), so
neither run creates any stack at all.  Evaluation of the code at the
failing input. -/
theorem claim1_app_and_all_runs_crash :
    createStacks "app" none "latest" "dev" wEnvAllSecrets
      = (([] : List StackModel),
         some (StackError.typeError "Cannot read properties of undefined (reading map)"))
    ∧ createStacks "all" none "latest" "dev" wEnvAllSecrets
      = (([] : List StackModel),
         some (StackError.typeError "Cannot read properties of undefined (reading length)")) := by
  exact ⟨rfl, rfl⟩

/-- C2 (code bug).  The claim says that in an "all" run the dependency
edges always yield the strict total order infrastructure before cluster
before application.  In the code the "all" run throws inside the
infrastructure constructor (network-construct.ts line 62) before
`ClusterStack` is constructed or any `addDependency` executes, so no
dependency edge is ever recorded: the edge set of the run is empty and
the run aborts with the TypeError.  Evaluation of the code at the
failing input. -/
theorem claim2_no_edges_recorded :
    roleEdges (createStacks "all" none "latest" "dev" wEnvAllSecrets).1
      = ([] : List (Role × Role))
    ∧ (createStacks "all" none "latest" "dev" wEnvAllSecrets).2
      = some (StackError.typeError "Cannot read properties of undefined (reading length)") := by
  exact ⟨rfl, rfl⟩

/-- C6.  When the deploy target includes the infrastructure role and a
required database secret resolves empty, the run fails with the
constructor's missing-secret error thrown while building the
infrastructure stack, and no stack at all (in particular no cluster or
application stack) has been constructed. -/
theorem claim6_missing_db_secret (deployTarget env : String)
    (procEnv : String → Option String) (cv : Option String) (av : String)
    (ht : deployTarget = "all" ∨ deployTarget = "infra")
    (hmiss : (getEnvVars env procEnv).dbUsername = ""
      ∨ (getEnvVars env procEnv).dbPassword = "") :
    (createStacks deployTarget cv av env procEnv).1 = ([] : List StackModel)
    ∧ ((createStacks deployTarget cv av env procEnv).2
          = some (StackError.missingSecret "DB_USERNAME environment variable must be set")
      ∨ (createStacks deployTarget cv av env procEnv).2
          = some (StackError.missingSecret "DB_PASSWORD environment variable must be set")) := by
  by_cases hu : (getEnvVars env procEnv).dbUsername = ""
  · rcases ht with rfl | rfl <;>
      refine ⟨?_, Or.inl ?_⟩ <;>
      simp [createStacks, mkInfraStack, Except.map,
        infrastructureStack, multiStackInfraRuntimeProps, hu]
  · have hp : (getEnvVars env procEnv).dbPassword = "" := hmiss.resolve_left hu
    rcases ht with rfl | rfl <;>
      refine ⟨?_, Or.inr ?_⟩ <;>
      simp [createStacks, mkInfraStack, Except.map,
        infrastructureStack, multiStackInfraRuntimeProps, hu, hp]

/-- C6, witness: the spec scenario — environment prod with
PROD_DB_USERNAME set but PROD_DB_PASSWORD absent, deploy target "all". -/
theorem claim6_missing_db_secret_witness :
    (createStacks "all" none "latest" "prod" wEnvProdNoPassword).1 = ([] : List StackModel)
    ∧ ((createStacks "all" none "latest" "prod" wEnvProdNoPassword).2
          = some (StackError.missingSecret "DB_USERNAME environment variable must be set")
      ∨ (createStacks "all" none "latest" "prod" wEnvProdNoPassword).2
          = some (StackError.missingSecret "DB_PASSWORD environment variable must be set")) :=
  claim6_missing_db_secret "all" "prod" wEnvProdNoPassword none "latest"
    (Or.inl rfl) (Or.inr (by decide))

/-- C7.  The composition invocation defaults: environment defaults to
dev, deploy target to "all", application version to "latest"; and a
supplied (non-empty) cluster version is attached as a ClusterVersion tag
on the cluster-role stack. -/
theorem claim7_invocation_defaults :
    (∀ ctx : String → Option String, ctx "env" = none → contextEnv ctx = "dev")
    ∧ (∀ ctx : String → Option String,
        ctx "deploy-target" = none → contextDeployTarget ctx = "all")
    ∧ (∀ ctx : String → Option String,
        ctx "version" = none → contextAppVersion ctx = "latest")
    ∧ (∀ (env av v : String) (procEnv : String → Option String), v ≠ "" →
        ∀ s ∈ (createStacks "cluster" (some v) av env procEnv).1,
          ("ClusterVersion", v) ∈ s.cdkTags) := by
  refine ⟨fun ctx h => ?_, fun ctx h => ?_, fun ctx h => ?_,
    fun env av v procEnv hv s hs => ?_⟩
  · rw [contextEnv, h]; rfl
  · rw [contextDeployTarget, h]; rfl
  · rw [contextAppVersion, h]; rfl
  · simp only [createStacks, mkClusterStack, Except.map] at hs
    simp at hs
    subst hs
    simp [hv]

/-- C7, witness: the empty context yields the three defaults, and a
cluster-only dev run with cluster version "1.29" carries the
ClusterVersion tag. -/
theorem claim7_invocation_defaults_witness :
    contextEnv emptyContext = "dev"
    ∧ contextDeployTarget emptyContext = "all"
    ∧ contextAppVersion emptyContext = "latest"
    ∧ ("ClusterVersion", "1.29")
        ∈ (mkClusterStack devConfig (some "1.29") "Dev" false).cdkTags :=
  ⟨claim7_invocation_defaults.1 emptyContext rfl,
   claim7_invocation_defaults.2.1 emptyContext rfl,
   claim7_invocation_defaults.2.2.1 emptyContext rfl,
   claim7_invocation_defaults.2.2.2 "dev" "latest" "1.29" emptyContext (by decide)
     (mkClusterStack devConfig (some "1.29") "Dev" false) (by decide)⟩

/-- C8.  Stack construction is a deterministic function of its props:
materializing the same infrastructure descriptor twice with identical
props yields the identical stack model (hence identical exports), and
publishing the resulting export batch a second time leaves every key's
resolution in the persisted store unchanged. -/
theorem claim8_materialization_idempotent (p q : InfrastructureStackProps)
    (hpq : p = q) (m : InfrastructureStackModel)
    (hm : infrastructureStack p = Except.ok m) :
    infrastructureStack q = Except.ok m
    ∧ ∀ (store : ExportStore) (k : String),
        resolveExport (publishAll (publishAll store m.outputs) m.outputs) k
          = resolveExport (publishAll store m.outputs) k := by
  subst hpq
  exact ⟨hm, fun store k => publishAll_idem store m.outputs k⟩

/-- C8, witness: the dev infrastructure descriptor materialized with its
secrets present; re-publishing its export batch does not change the
resolution of the vpc-id key. -/
theorem claim8_materialization_idempotent_witness :
    infrastructureStack wInfraProps
      = Except.ok { outputs := infrastructureOutputs "ecs-jenkins" "dev" }
    ∧ resolveExport
        (publishAll (publishAll ExportStore.empty (infrastructureOutputs "ecs-jenkins" "dev"))
          (infrastructureOutputs "ecs-jenkins" "dev"))
        "ecs-jenkins-dev-vpc-id"
      = resolveExport (publishAll ExportStore.empty (infrastructureOutputs "ecs-jenkins" "dev"))
        "ecs-jenkins-dev-vpc-id" :=
  ⟨(claim8_materialization_idempotent wInfraProps wInfraProps rfl
      { outputs := infrastructureOutputs "ecs-jenkins" "dev" } rfl).1,
   (claim8_materialization_idempotent wInfraProps wInfraProps rfl
      { outputs := infrastructureOutputs "ecs-jenkins" "dev" } rfl).2
     ExportStore.empty "ecs-jenkins-dev-vpc-id"⟩

/-- C9.  A deploy-target string other than "all", "infra", "cluster" or
"app" silently skips every role branch: no stack is created and no error
is reported. -/
theorem claim9_unknown_target_silent (deployTarget env : String)
    (procEnv : String → Option String) (cv : Option String) (av : String)
    (h1 : deployTarget ≠ "all") (h2 : deployTarget ≠ "infra")
    (h3 : deployTarget ≠ "cluster") (h4 : deployTarget ≠ "app") :
    createStacks deployTarget cv av env procEnv = (([] : List StackModel), none) := by
  simp [createStacks, h1, h2, h3, h4]

/-- C9, witness: the misspelled target "App" (wrong case) creates nothing
and reports nothing. -/
theorem claim9_unknown_target_silent_witness :
    createStacks "App" none "latest" "dev" wEnvAllSecrets = (([] : List StackModel), none) :=
  claim9_unknown_target_silent "App" "dev" wEnvAllSecrets none "latest"
    (by decide) (by decide) (by decide) (by decide)

/-- C10.  Secret validation is scoped per stack: the outcome of an
"infra" composition depends only on the database secrets (it is
unchanged under any change to the Grafana secret) and can never be the
Grafana missing-secret error; the outcome of an "app" composition
depends only on the Grafana secret (it is unchanged under any change to
the database secrets) and can never be a database missing-secret error.
Composing "infra" therefore never requires the Grafana password and
composing "app" never requires the database username or password. -/
theorem claim10_scoped_secret_validation :
    (∀ (env av : String) (cv : Option String) (pe pe2 : String → Option String),
      (getEnvVars env pe).dbUsername = (getEnvVars env pe2).dbUsername →
      (getEnvVars env pe).dbPassword = (getEnvVars env pe2).dbPassword →
      createStacks "infra" cv av env pe = createStacks "infra" cv av env pe2)
    ∧ (∀ (env av : String) (cv : Option String) (pe pe2 : String → Option String),
      (getEnvVars env pe).grafanaPassword = (getEnvVars env pe2).grafanaPassword →
      createStacks "app" cv av env pe = createStacks "app" cv av env pe2)
    ∧ (∀ (env av : String) (cv : Option String) (pe : String → Option String),
      (createStacks "infra" cv av env pe).2
        ≠ some (StackError.missingSecret "GRAFANA_ADMIN_PASSWORD environment variable must be set"))
    ∧ (∀ (env av : String) (cv : Option String) (pe : String → Option String),
      (createStacks "app" cv av env pe).2
        ≠ some (StackError.missingSecret "DB_USERNAME environment variable must be set")
      ∧ (createStacks "app" cv av env pe).2
        ≠ some (StackError.missingSecret "DB_PASSWORD environment variable must be set")) := by
  refine ⟨?_, ?_, ?_, ?_⟩
  · intro env av cv pe pe2 h1 h2
    by_cases hu : (getEnvVars env pe).dbUsername = ""
    · have hu2 : (getEnvVars env pe2).dbUsername = "" := h1 ▸ hu
      simp [createStacks, mkInfraStack, infrastructureStack,
        multiStackInfraRuntimeProps, hu, hu2]
    · have hu2 : ¬(getEnvVars env pe2).dbUsername = "" := fun hh => hu (h1.trans hh)
      by_cases hp : (getEnvVars env pe).dbPassword = ""
      · have hp2 : (getEnvVars env pe2).dbPassword = "" := h2 ▸ hp
        simp [createStacks, mkInfraStack, infrastructureStack,
          multiStackInfraRuntimeProps, hu, hu2, hp, hp2]
      · have hp2 : ¬(getEnvVars env pe2).dbPassword = "" := fun hh => hp (h2.trans hh)
        simp [createStacks, mkInfraStack, infrastructureStack,
          multiStackInfraRuntimeProps, hu, hu2, hp, hp2]
  · intro env av cv pe pe2 h1
    by_cases hg : (getEnvVars env pe).grafanaPassword = ""
    · have hg2 : (getEnvVars env pe2).grafanaPassword = "" := h1 ▸ hg
      simp [createStacks, mkAppStack, hg, hg2]
    · have hg2 : ¬(getEnvVars env pe2).grafanaPassword = "" := fun hh => hg (h1.trans hh)
      simp [createStacks, mkAppStack, hg, hg2]
  · intro env av cv pe
    by_cases hu : (getEnvVars env pe).dbUsername = ""
    · simp [createStacks, mkInfraStack, infrastructureStack, Except.map,
        multiStackInfraRuntimeProps, hu]
    · by_cases hp : (getEnvVars env pe).dbPassword = ""
      · simp [createStacks, mkInfraStack, infrastructureStack, Except.map,
          multiStackInfraRuntimeProps, hu, hp]
      · simp [createStacks, mkInfraStack, infrastructureStack, Except.map,
          multiStackInfraRuntimeProps, hu, hp]
  · intro env av cv pe
    by_cases hg : (getEnvVars env pe).grafanaPassword = ""
    · constructor <;> simp [createStacks, mkAppStack, hg]
    · constructor <;> simp [createStacks, mkAppStack, hg]

/-- C10, witness: the infra run gives the same result with and without
the Grafana password; the app run gives the same result with and without
the database secrets; and the infra run's error is not the Grafana
missing-secret error. -/
theorem claim10_scoped_secret_validation_witness :
    createStacks "infra" none "latest" "dev" wEnvDbOnly
      = createStacks "infra" none "latest" "dev" wEnvDbAndGrafana
    ∧ createStacks "app" none "latest" "dev" wEnvGrafanaOnly
      = createStacks "app" none "latest" "dev" wEnvDbAndGrafana
    ∧ (createStacks "infra" none "latest" "dev" wEnvDbOnly).2
      ≠ some (StackError.missingSecret "GRAFANA_ADMIN_PASSWORD environment variable must be set") :=
  ⟨claim10_scoped_secret_validation.1 "dev" "latest" none wEnvDbOnly wEnvDbAndGrafana
      (by decide) (by decide),
   claim10_scoped_secret_validation.2.1 "dev" "latest" none wEnvGrafanaOnly wEnvDbAndGrafana
      (by decide),
   claim10_scoped_secret_validation.2.2.1 "dev" "latest" none wEnvDbOnly⟩

end CdkJenkins
